import Mathlib

/-!
Verification development for the Medical-Passport triage pipeline
(source file app.py). The heuristic document-triage path is embedded
shallowly: Python strings become lists of characters, the line scanner
of deep_clinical_parse becomes an explicit tail loop over the list of
lines, and the PDF/DOCX extraction adapter get_clean_text becomes a
function into Except so that raised library errors are visible. All
definitions are translated from the source; ASCII case conversion
models the Python str.lower and str.upper calls on the ASCII inputs the
pipeline handles.
-/

/-- Whitespace test matching the Python str.strip default set (ASCII part). -/
def pyIsSpace (c : Char) : Bool :=
  c = ' ' || c = '\t' || c = '\n' || c = '\r' || c = '\x0b' || c = '\x0c'

/-- Model of the Python str.strip method: drop whitespace at both ends. -/
def pyStrip (s : List Char) : List Char :=
  ((s.dropWhile pyIsSpace).reverse.dropWhile pyIsSpace).reverse

/-- Model of the Python str.upper method on ASCII text. -/
def pyUpper (s : List Char) : List Char :=
  s.map Char.toUpper

/-- Model of the Python str.lower method on ASCII text. -/
def pyLower (s : List Char) : List Char :=
  s.map Char.toLower

/-- Model of the Python text.split with separator, here fixed to the
newline character: empty input gives one empty piece, and empty pieces
are kept, exactly as in Python. -/
def splitOnNl : List Char → List (List Char)
  | [] => [[]]
  | c :: rest =>
      if c = '\n' then [] :: splitOnNl rest
      else
        match splitOnNl rest with
        | [] => [[c]]
        | p :: ps => (c :: p) :: ps

/-- Boolean test that the first list is a leading segment of the second. -/
def isPre : List Char → List Char → Bool
  | [], _ => true
  | _ :: _, [] => false
  | a :: as, b :: bs => a = b && isPre as bs

/-- Model of the Python substring containment test, the expression
k in s. -/
def containsSub (needle : List Char) : List Char → Bool
  | [] => needle.isEmpty
  | c :: rest => isPre needle (c :: rest) || containsSub needle rest

/-- Model of the Python "\n".join call. -/
def joinNl : List (List Char) → List Char
  | [] => []
  | [l] => l
  | l :: ls => l ++ '\n' :: joinNl ls

/-- Leading four-digit test: the alternative d d d d of the header
regex, matched as a prefix of the line. -/
def startsWithYear : List Char → Bool
  | a :: b :: c :: d :: _ => a.isDigit && b.isDigit && c.isDigit && d.isDigit
  | _ => false

/-- Literal alternatives of the header regex of app.py line 120 (month
abbreviations plus Present and Current), in upper case because the
IGNORECASE match is modelled by comparing upper-cased text. -/
def dateAlts : List (List Char) :=
  [String.toList "JAN", String.toList "FEB", String.toList "MAR",
   String.toList "APR", String.toList "MAY", String.toList "JUN",
   String.toList "JUL", String.toList "AUG", String.toList "SEP",
   String.toList "OCT", String.toList "NOV", String.toList "DEC",
   String.toList "PRESENT", String.toList "CURRENT"]

/-- Strong section keywords of app.py line 128: the code tests exactly
HOSPITAL, TRUST and SZPITAL against the upper-cased line. -/
def strongKws : List (List Char) :=
  [String.toList "HOSPITAL", String.toList "TRUST", String.toList "SZPITAL"]

/-- Header test of app.py lines 127 and 128: the line matches the
anchored date regex with IGNORECASE, or contains one of the strong
section keywords after upper-casing. -/
def is_new_header (cleanLine : List Char) : Bool :=
  (startsWithYear cleanLine
    || dateAlts.any (fun t => isPre t (pyUpper cleanLine)))
  || strongKws.any (fun k => containsSub k (pyUpper cleanLine))

/-- Registration keywords of app.py line 135. -/
def regKws : List (List Char) :=
  [String.toList "gmc", String.toList "license", String.toList "registration"]

/-- Academic project keywords of app.py line 137. -/
def projKws : List (List Char) :=
  [String.toList "audit", String.toList "qip", String.toList "research",
   String.toList "publication"]

/-- Procedure keywords of app.py line 139. -/
def procKws : List (List Char) :=
  [String.toList "procedure", String.toList "intubation",
   String.toList "suturing", String.toList "cannulation"]

/-- Rotation keywords of app.py line 141. -/
def rotKws : List (List Char) :=
  [String.toList "hospital", String.toList "trust", String.toList "szpital",
   String.toList "ward"]

/-- Keyword set membership: any keyword of the set occurs as a
substring of the lower-cased block text. -/
def anyKw (kws : List (List Char)) (low : List Char) : Bool :=
  kws.any (fun k => containsSub k low)

/-- Categories of the triage mapping of app.py line 115, as the target
of the classification chain. -/
inductive Cat where
  | registrationsC
  | projectsC
  | proceduresC
  | rotationsC
  | fragmentsC
deriving DecidableEq, Repr

/-- Classification chain of app.py lines 133 to 144: lower-case the
joined block text, then test the keyword sets in source order and take
the first hit, with fragments as the final else branch. -/
def classifyBlock (fullContent : List Char) : Cat :=
  if anyKw regKws (pyLower fullContent) then Cat.registrationsC
  else if anyKw projKws (pyLower fullContent) then Cat.projectsC
  else if anyKw procKws (pyLower fullContent) then Cat.proceduresC
  else if anyKw rotKws (pyLower fullContent) then Cat.rotationsC
  else Cat.fragmentsC

/-- The triage dictionary of app.py line 115. -/
structure Triage where
  rotations : List (List Char)
  procedures : List (List Char)
  projects : List (List Char)
  registrations : List (List Char)
  fragments : List (List Char)
deriving DecidableEq, Repr

/-- The initial empty triage dictionary. -/
def emptyTriage : Triage :=
  { rotations := [], procedures := [], projects := [],
    registrations := [], fragments := [] }

/-- Append a finished block to the category list chosen by the
classification chain, modelling the append calls of app.py
lines 136 to 144. -/
def addTo (t : Triage) (c : Cat) (b : List Char) : Triage :=
  match c with
  | Cat.registrationsC => { t with registrations := t.registrations ++ [b] }
  | Cat.projectsC => { t with projects := t.projects ++ [b] }
  | Cat.proceduresC => { t with procedures := t.procedures ++ [b] }
  | Cat.rotationsC => { t with rotations := t.rotations ++ [b] }
  | Cat.fragmentsC => { t with fragments := t.fragments ++ [b] }

/-- The line scan of app.py lines 122 to 152 as an explicit loop over
the remaining lines, the current block accumulator and the triage
built so far. Blank lines are skipped; a header line with a non-empty
accumulator closes and classifies the accumulated block and opens a
fresh one; any other line is appended; at end of input a non-empty
leftover accumulator is appended to the rotations list. -/
def parseLoop : List (List Char) → List (List Char) → Triage → Triage
  | [], currentBlock, triage =>
      if currentBlock.isEmpty then triage
      else { triage with rotations := triage.rotations ++ [joinNl currentBlock] }
  | line :: rest, currentBlock, triage =>
      if (pyStrip line).isEmpty then parseLoop rest currentBlock triage
      else
        if is_new_header (pyStrip line) && !currentBlock.isEmpty then
          parseLoop rest [pyStrip line]
            (addTo triage (classifyBlock (joinNl currentBlock)) (joinNl currentBlock))
        else parseLoop rest (currentBlock ++ [pyStrip line]) triage

/-- The heuristic triage path of app.py lines 111 to 154 on already
extracted text: split on newlines and run the line scan from an empty
accumulator and an empty triage. -/
def deep_clinical_parse (text : List Char) : Triage :=
  parseLoop (splitOnNl text) [] emptyTriage

/-- Trimmed non-blank lines of a line list, in source order: the lines
the scan of app.py actually processes after the strip and the blank
skip of lines 123 and 124. -/
def linesClean (lines : List (List Char)) : List (List Char) :=
  (lines.map pyStrip).filter (fun c => !c.isEmpty)

/-- Trimmed non-blank lines of an input text. -/
def cleanLines (text : List Char) : List (List Char) :=
  linesClean (splitOnNl text)

/-- Segmenter view of the same scan: the closed blocks, as lists of
lines, in closing order, the final leftover accumulator included. -/
def segLoopL : List (List Char) → List (List Char) → List (List (List Char))
  | [], currentBlock =>
      if currentBlock.isEmpty then [] else [currentBlock]
  | line :: rest, currentBlock =>
      if (pyStrip line).isEmpty then segLoopL rest currentBlock
      else
        if is_new_header (pyStrip line) && !currentBlock.isEmpty then
          currentBlock :: segLoopL rest [pyStrip line]
        else segLoopL rest (currentBlock ++ [pyStrip line])

/-- Segmenter blocks of an input text, each joined with newlines the
way app.py line 132 and line 152 build block text. -/
def segBlocksL (text : List Char) : List (List (List Char)) :=
  segLoopL (splitOnNl text) []

/-- Segmenter blocks of an input text as joined block texts. -/
def segBlocks (text : List Char) : List (List Char) :=
  (segBlocksL text).map joinNl

/-- All blocks stored in a triage result, category lists concatenated. -/
def allBlocks (t : Triage) : List (List Char) :=
  t.registrations ++ t.projects ++ t.procedures ++ t.rotations ++ t.fragments

/-- Model of an uploaded file as seen by get_clean_text of app.py: its
name, and the outcomes of the two extraction library calls. A PDF read
yields per page the result of extract_text, either no text or some
text; a DOCX read yields the paragraph texts. Either library call may
instead raise, modelled by the error side of Except, because app.py
wraps neither call in a try block. -/
structure PyFile (ε : Type) where
  name : List Char
  pdfPages : Except ε (List (Option (List Char)))
  docxParas : Except ε (List (List Char))

/-- Truthiness filter of the comprehension of app.py line 105: a page
contributes its text only when extract_text returned a non-empty
string. -/
def truthyText : Option (List Char) → Option (List Char)
  | none => none
  | some t => if t.isEmpty then none else some t

/-- Model of get_clean_text of app.py lines 102 to 109: dispatch on
the file name suffix, join page texts for PDF and paragraph texts for
DOCX, return the empty string for any other suffix. Library errors
propagate to the caller unchanged since the source has no exception
handler. -/
def get_clean_text {ε : Type} (f : PyFile ε) : Except ε (List Char) :=
  if isPre (String.toList ".pdf").reverse f.name.reverse then
    match f.pdfPages with
    | Except.error e => Except.error e
    | Except.ok pages => Except.ok (joinNl (pages.filterMap truthyText))
  else if isPre (String.toList ".docx").reverse f.name.reverse then
    match f.docxParas with
    | Except.error e => Except.error e
    | Except.ok paras => Except.ok (joinNl paras)
  else Except.ok []

/-- Full pipeline on a file: extract, then triage the text; an
extraction error propagates, as in app.py line 112 where
deep_clinical_parse calls get_clean_text unguarded. -/
def deep_clinical_parse_file {ε : Type} (f : PyFile ε) : Except ε Triage :=
  Except.map deep_clinical_parse (get_clean_text f)

/-- Word character test for the word boundary of a regex. -/
def isWordChar (c : Char) : Bool :=
  c.isAlphanum || c = '_'

/-- Test for the token 2 0 digit digit at the head of the list with a
word boundary on its right. -/
def yearAt : List Char → Bool
  | '2' :: '0' :: c :: d :: rest =>
      c.isDigit && d.isDigit &&
        (match rest with
         | [] => true
         | e :: _ => !isWordChar e)
  | _ => false

/-- Modelled from the spec: the fallback year-token search the spec
attributes to the classifier, the regex of a 2 0 digit digit token
between word boundaries. No such fallback exists in app.py; this
definition exists only to state that divergence. The Boolean argument
records whether the scan currently sits at a left word boundary. -/
def specYearScan : Bool → List Char → Bool
  | _, [] => false
  | atBoundary, c :: rest =>
      (atBoundary && yearAt (c :: rest)) || specYearScan (!isWordChar c) rest

/-- Modelled from the spec: whole-string year-token search, starting
at a left word boundary. -/
def specHasYearToken (s : List Char) : Bool :=
  specYearScan true s

/-- Unfolding of linesClean over a cons cell. -/
theorem linesClean_cons (line : List Char) (rest : List (List Char)) :
    linesClean (line :: rest) =
      if (pyStrip line).isEmpty then linesClean rest
      else pyStrip line :: linesClean rest := by
  by_cases h : (pyStrip line).isEmpty <;>
    simp [linesClean, List.filter_cons, h]

/-- When every remaining trimmed non-blank line fails the header test,
the scan only accumulates: it ends with the starting accumulator
extended by all remaining clean lines, and closes nothing on the way. -/
theorem parseLoop_noHeader (lines : List (List Char)) :
    ∀ (acc : List (List Char)) (t : Triage),
      (∀ l ∈ linesClean lines, is_new_header l = false) →
      parseLoop lines acc t = parseLoop [] (acc ++ linesClean lines) t := by
  induction lines with
  | nil =>
      intro acc t _
      simp [linesClean]
  | cons line rest ih =>
      intro acc t h
      cases hb : (pyStrip line).isEmpty with
      | true =>
          rw [linesClean_cons, if_pos hb] at h ⊢
          conv_lhs => rw [parseLoop]
          rw [if_pos hb]
          exact ih acc t h
      | false =>
          rw [linesClean_cons, if_neg (by simp [hb])] at h ⊢
          have hhd : is_new_header (pyStrip line) = false :=
            h (pyStrip line) (List.mem_cons_self _ _)
          conv_lhs => rw [parseLoop]
          rw [if_neg (by simp [hb]), if_neg (by simp [hhd])]
          have h2 : ∀ l ∈ linesClean rest, is_new_header l = false :=
            fun l hl => h l (List.mem_cons_of_mem _ hl)
          rw [ih (acc ++ [pyStrip line]) t h2, List.append_assoc]
          rfl

/-- End of input with a non-empty accumulator appends exactly one
block, joined from the accumulator, to the rotations list. -/
theorem parseLoop_nil_of_ne (acc : List (List Char)) (t : Triage) (h : ¬acc.isEmpty) :
    parseLoop [] acc t = { t with rotations := t.rotations ++ [joinNl acc] } := by
  rw [parseLoop, if_neg (by simp [h])]

/-- Helper for the single-block scenario: when at least one clean line
exists and no clean line after the first one is a header, the whole
scan produces one rotation block joining all clean lines. -/
theorem parseLoop_single (lines : List (List Char))
    (hne : linesClean lines ≠ [])
    (hnh : ∀ l ∈ (linesClean lines).tail, is_new_header l = false) :
    parseLoop lines [] emptyTriage =
      { rotations := [joinNl (linesClean lines)], procedures := [], projects := [],
        registrations := [], fragments := [] } := by
  induction lines with
  | nil => simp [linesClean] at hne
  | cons line rest ih =>
      cases hb : (pyStrip line).isEmpty with
      | true =>
          rw [linesClean_cons, if_pos hb] at hne hnh ⊢
          rw [parseLoop, if_pos hb]
          exact ih hne hnh
      | false =>
          rw [linesClean_cons, if_neg (by simp [hb])] at hnh ⊢
          conv_lhs => rw [parseLoop]
          rw [if_neg (by simp [hb]), if_neg (by simp)]
          simp only [List.nil_append]
          rw [parseLoop_noHeader rest [pyStrip line] emptyTriage (by simpa using hnh)]
          rw [parseLoop_nil_of_ne _ _ (by simp)]
          simp [emptyTriage]

/-- Adding a block to the chosen category list adds exactly that block
to the combined block collection, whatever the category. -/
theorem allBlocks_addTo (t : Triage) (c : Cat) (b : List Char) :
    (↑(allBlocks (addTo t c b)) : Multiset (List Char)) =
      ↑(allBlocks t) + {b} := by
  cases c <;>
    simp only [addTo, allBlocks, ← Multiset.coe_add, ← Multiset.coe_singleton] <;>
    abel

/-- The triage built by the scan holds, as a multiset, the starting
triage plus one joined block per block the segmenter view closes. -/
theorem parseLoop_multiset (lines : List (List Char)) :
    ∀ (acc : List (List Char)) (t : Triage),
      (↑(allBlocks (parseLoop lines acc t)) : Multiset (List Char)) =
        ↑(allBlocks t) + ↑((segLoopL lines acc).map joinNl) := by
  induction lines with
  | nil =>
      intro acc t
      cases ha : acc.isEmpty with
      | true =>
          rw [parseLoop, if_pos ha, segLoopL, if_pos ha]
          simp
      | false =>
          rw [parseLoop, if_neg (by simp [ha]), segLoopL, if_neg (by simp [ha])]
          simp only [allBlocks, List.map_cons, List.map_nil, ← Multiset.coe_add,
            ← Multiset.coe_singleton, Multiset.coe_nil]
          abel
  | cons line rest ih =>
      intro acc t
      cases hb : (pyStrip line).isEmpty with
      | true =>
          conv_lhs => rw [parseLoop]
          rw [if_pos hb, segLoopL, if_pos hb]
          exact ih acc t
      | false =>
          cases hc : is_new_header (pyStrip line) && !acc.isEmpty with
          | true =>
              conv_lhs => rw [parseLoop]
              rw [if_neg (by simp [hb]), if_pos hc, segLoopL, if_neg (by simp [hb]),
                if_pos hc, ih, allBlocks_addTo]
              simp only [List.map_cons, ← Multiset.cons_coe, ← Multiset.singleton_add]
              abel
          | false =>
              conv_lhs => rw [parseLoop]
              rw [if_neg (by simp [hb]), if_neg (by simp [hc]), segLoopL,
                if_neg (by simp [hb]), if_neg (by simp [hc])]
              exact ih (acc ++ [pyStrip line]) t

/-- The segmenter view closes blocks whose lines, concatenated in
closing order, are exactly the starting accumulator followed by all
remaining trimmed non-blank lines. -/
theorem segLoopL_join (lines : List (List Char)) :
    ∀ (acc : List (List Char)),
      (segLoopL lines acc).flatten = acc ++ linesClean lines := by
  induction lines with
  | nil =>
      intro acc
      cases ha : acc.isEmpty with
      | true =>
          rw [segLoopL, if_pos ha]
          simp [linesClean, List.isEmpty_iff.mp ha]
      | false =>
          rw [segLoopL, if_neg (by simp [ha])]
          simp [linesClean]
  | cons line rest ih =>
      intro acc
      cases hb : (pyStrip line).isEmpty with
      | true =>
          rw [segLoopL, if_pos hb, linesClean_cons, if_pos hb]
          exact ih acc
      | false =>
          rw [linesClean_cons, if_neg (by simp [hb])]
          cases hc : is_new_header (pyStrip line) && !acc.isEmpty with
          | true =>
              rw [segLoopL, if_neg (by simp [hb]), if_pos hc]
              simp [ih [pyStrip line]]
          | false =>
              rw [segLoopL, if_neg (by simp [hb]), if_neg (by simp [hc])]
              simp [ih (acc ++ [pyStrip line])]

/-- Joining a block whose first line is non-empty gives non-empty
text. -/
theorem joinNl_ne_nil (l : List Char) (ls : List (List Char)) (h : l ≠ []) :
    joinNl (l :: ls) ≠ [] := by
  cases ls with
  | nil => simpa [joinNl] using h
  | cons a as => simp [joinNl]

/-- Membership in the combined block collection after an addTo step. -/
theorem mem_allBlocks_addTo (t : Triage) (c : Cat) (x b : List Char)
    (h : b ∈ allBlocks (addTo t c x)) : b ∈ allBlocks t ∨ b = x := by
  cases c <;> simp [addTo, allBlocks] at h ⊢ <;> tauto

/-- Invariant of the scan: starting from an accumulator of non-empty
lines and a triage of non-empty blocks, every block of the final triage
is non-empty. -/
theorem parseLoop_blocks_ne_nil (lines : List (List Char)) :
    ∀ (acc : List (List Char)) (t : Triage),
      (∀ l ∈ acc, l ≠ []) → (∀ b ∈ allBlocks t, b ≠ []) →
      ∀ b ∈ allBlocks (parseLoop lines acc t), b ≠ [] := by
  induction lines with
  | nil =>
      intro acc t hacc ht b hb
      cases ha : acc.isEmpty with
      | true =>
          rw [parseLoop, if_pos ha] at hb
          exact ht b hb
      | false =>
          rw [parseLoop, if_neg (by simp [ha])] at hb
          simp only [allBlocks, List.mem_append] at hb
          rcases hb with ((((hr | hp) | hq) | hrot) | hf)
          · exact ht b (by simp [allBlocks, hr])
          · exact ht b (by simp [allBlocks, hp])
          · exact ht b (by simp [allBlocks, hq])
          · rcases hrot with hrot | hone
            · exact ht b (by simp [allBlocks, hrot])
            · obtain rfl : b = joinNl acc := by simpa using hone
              obtain ⟨l, ls, rfl⟩ : ∃ l ls, acc = l :: ls := by
                cases acc with
                | nil => simp at ha
                | cons l ls => exact ⟨l, ls, rfl⟩
              exact joinNl_ne_nil l ls (hacc l (List.mem_cons_self _ _))
          · exact ht b (by simp [allBlocks, hf])
  | cons line rest ih =>
      intro acc t hacc ht b hb
      cases hb2 : (pyStrip line).isEmpty with
      | true =>
          rw [parseLoop, if_pos hb2] at hb
          exact ih acc t hacc ht b hb
      | false =>
          have hline : pyStrip line ≠ [] := by
            intro h0
            rw [h0] at hb2
            simp at hb2
          cases hc : is_new_header (pyStrip line) && !acc.isEmpty with
          | true =>
              rw [parseLoop, if_neg (by simp [hb2]), if_pos hc] at hb
              have hane : acc.isEmpty = false := by
                have h2 := hc
                simp only [Bool.and_eq_true, Bool.not_eq_true'] at h2
                exact h2.2
              obtain ⟨l, ls, rfl⟩ : ∃ l ls, acc = l :: ls := by
                cases acc with
                | nil => simp at hane
                | cons l ls => exact ⟨l, ls, rfl⟩
              refine ih [pyStrip line] _ (by simpa using hline) ?_ b hb
              intro x hx
              rcases mem_allBlocks_addTo _ _ _ _ hx with hx | rfl
              · exact ht x hx
              · exact joinNl_ne_nil l ls (hacc l (List.mem_cons_self _ _))
          | false =>
              rw [parseLoop, if_neg (by simp [hb2]), if_neg (by simp [hc])] at hb
              refine ih (acc ++ [pyStrip line]) t ?_ ht b hb
              intro x hx
              rcases List.mem_append.mp hx with hx | hx
              · exact hacc x hx
              · obtain rfl : x = pyStrip line := by simpa using hx
                exact hline

/-- C1 counterexample: the block Intubation audit contains a procedure
keyword and an academic keyword and no registration keyword, yet the
classifier returns the academic projects category, not procedures,
because app.py tests the academic keyword set before the procedure
keyword set. -/
theorem C1_counterexample :
    anyKw procKws (pyLower (String.toList "Intubation audit")) = true
    ∧ anyKw projKws (pyLower (String.toList "Intubation audit")) = true
    ∧ anyKw regKws (pyLower (String.toList "Intubation audit")) = false
    ∧ classifyBlock (String.toList "Intubation audit") = Cat.projectsC
    ∧ Cat.projectsC ≠ Cat.proceduresC := by
  decide

/-- C1 amended: the classifier tests the keyword sets in the fixed
order registration, then academic, then procedure, then rotation, and
the first matching set wins; in particular a block containing both a
procedure keyword and an academic keyword but no registration keyword
is classified as academic. -/
theorem C1_priority_order (b : List Char) :
    (anyKw regKws (pyLower b) = true → classifyBlock b = Cat.registrationsC)
    ∧ (anyKw regKws (pyLower b) = false → anyKw projKws (pyLower b) = true →
        classifyBlock b = Cat.projectsC)
    ∧ (anyKw regKws (pyLower b) = false → anyKw projKws (pyLower b) = false →
        anyKw procKws (pyLower b) = true → classifyBlock b = Cat.proceduresC)
    ∧ (anyKw regKws (pyLower b) = false → anyKw projKws (pyLower b) = false →
        anyKw procKws (pyLower b) = false → anyKw rotKws (pyLower b) = true →
        classifyBlock b = Cat.rotationsC) := by
  refine ⟨?_, ?_, ?_, ?_⟩ <;> intros <;> simp_all [classifyBlock]

/-- Witness for C1_priority_order at a concrete block holding both a
procedure keyword and an academic keyword. -/
theorem C1_priority_order_witness :
    classifyBlock (String.toList "Intubation audit") = Cat.projectsC :=
  (C1_priority_order (String.toList "Intubation audit")).2.1 (by decide) (by decide)

/-- C2 counterexample: the block Fancy clinic 2023 stint carries a
bare year token of the claimed fallback regex and matches no keyword
set, and it is closed by the header line 2024 Hospital placement, yet
the code files it under fragments, not rotations: no year fallback
exists in app.py. -/
theorem C2_counterexample :
    specHasYearToken (pyLower (String.toList "Fancy clinic 2023 stint")) = true
    ∧ anyKw regKws (pyLower (String.toList "Fancy clinic 2023 stint")) = false
    ∧ anyKw projKws (pyLower (String.toList "Fancy clinic 2023 stint")) = false
    ∧ anyKw procKws (pyLower (String.toList "Fancy clinic 2023 stint")) = false
    ∧ anyKw rotKws (pyLower (String.toList "Fancy clinic 2023 stint")) = false
    ∧ (deep_clinical_parse
          (String.toList "Fancy clinic 2023 stint\n2024 Hospital placement")).fragments =
        [String.toList "Fancy clinic 2023 stint"]
    ∧ (deep_clinical_parse
          (String.toList "Fancy clinic 2023 stint\n2024 Hospital placement")).rotations =
        [String.toList "2024 Hospital placement"] := by
  decide

/-- C2 amended: a block matching no keyword set of any category is
assigned to fragments unconditionally; the classifier consults no
year-token fallback. -/
theorem C2_no_keyword_is_fragment (b : List Char)
    (hreg : anyKw regKws (pyLower b) = false)
    (hproj : anyKw projKws (pyLower b) = false)
    (hproc : anyKw procKws (pyLower b) = false)
    (hrot : anyKw rotKws (pyLower b) = false) :
    classifyBlock b = Cat.fragmentsC := by
  simp [classifyBlock, hreg, hproj, hproc, hrot]

/-- Witness for C2_no_keyword_is_fragment at a keyword-free block that
does contain a year token, showing the year is ignored. -/
theorem C2_no_keyword_is_fragment_witness :
    classifyBlock (String.toList "Fancy clinic 2023 stint") = Cat.fragmentsC :=
  C2_no_keyword_is_fragment (String.toList "Fancy clinic 2023 stint")
    (by decide) (by decide) (by decide) (by decide)

/-- C3: when the input has at least one trimmed non-blank line and no
clean line after the first is a header, the scan closes nothing early,
and the end-of-input rule files the single accumulated block, the join
of all clean lines, under rotations regardless of its content. -/
theorem C3_single_block_rotation (text : List Char)
    (hne : cleanLines text ≠ [])
    (hnh : ∀ l ∈ (cleanLines text).tail, is_new_header l = false) :
    deep_clinical_parse text =
      { rotations := [joinNl (cleanLines text)], procedures := [], projects := [],
        registrations := [], fragments := [] } :=
  parseLoop_single (splitOnNl text) hne hnh

/-- Witness for C3_single_block_rotation at a two-line text with no
header line after the first. -/
theorem C3_single_block_rotation_witness :
    deep_clinical_parse (String.toList "General medicine attachment\nmanaged the acute take") =
      { rotations := [String.toList "General medicine attachment\nmanaged the acute take"],
        procedures := [], projects := [], registrations := [], fragments := [] } :=
  (C3_single_block_rotation
      (String.toList "General medicine attachment\nmanaged the acute take")
      (by decide) (by decide)).trans (by decide)

/-- C4 counterexample: the line EDUCATION AND QUALIFICATIONS is
already trimmed, contains the claimed strong section keyword
EDUCATION, yet is not treated as a new-entry header by the code, whose
keyword set is only HOSPITAL, TRUST and SZPITAL. -/
theorem C4_counterexample :
    containsSub (String.toList "EDUCATION")
        (pyUpper (String.toList "EDUCATION AND QUALIFICATIONS")) = true
    ∧ pyStrip (String.toList "EDUCATION AND QUALIFICATIONS") =
        String.toList "EDUCATION AND QUALIFICATIONS"
    ∧ is_new_header (String.toList "EDUCATION AND QUALIFICATIONS") = false := by
  decide

/-- C4 amended: a trimmed line is a new-entry header exactly when it
starts with four digits, or starts case-insensitively with a month
abbreviation or Present or Current, or contains one of exactly three
strong section keywords HOSPITAL, TRUST, SZPITAL case-insensitively;
EXPERIENCE, EMPLOYMENT, EDUCATION and QUALIFICATIONS are not header
keywords. -/
theorem C4_header_characterization (line : List Char) :
    is_new_header line = true ↔
      (startsWithYear line = true
        ∨ (∃ t ∈ dateAlts, isPre t (pyUpper line) = true)
        ∨ (∃ k ∈ strongKws, containsSub k (pyUpper line) = true)) := by
  simp [is_new_header, List.any_eq_true, Bool.or_eq_true, or_assoc]

/-- C5: conservation of blocks. The blocks stored across the five
category lists are, as a multiset, exactly the blocks the segmenter
view closes, so their total count agrees, and the lines of the closed
blocks concatenate to exactly the trimmed non-blank input lines in
source order. -/
theorem C5_block_conservation (text : List Char) :
    (↑(allBlocks (deep_clinical_parse text)) : Multiset (List Char)) = ↑(segBlocks text)
    ∧ (allBlocks (deep_clinical_parse text)).length = (segBlocks text).length
    ∧ (segBlocksL text).flatten = cleanLines text := by
  have h := parseLoop_multiset (splitOnNl text) [] emptyTriage
  have h1 : (↑(allBlocks (deep_clinical_parse text)) : Multiset (List Char)) =
      ↑(segBlocks text) := by
    simpa [deep_clinical_parse, segBlocks, segBlocksL, allBlocks, emptyTriage] using h
  refine ⟨h1, ?_, ?_⟩
  · have h2 := congrArg Multiset.card h1
    simpa using h2
  · have h3 := segLoopL_join (splitOnNl text) []
    simpa [segBlocksL, cleanLines] using h3

/-- C6: an input text whose lines are all blank after trimming yields
the empty triage result; the embedded pipeline is a total function, so
no exception can escape it. -/
theorem C6_empty_text_empty_triage (text : List Char)
    (h : cleanLines text = []) :
    deep_clinical_parse text = emptyTriage := by
  unfold deep_clinical_parse
  rw [parseLoop_noHeader (splitOnNl text) [] emptyTriage
      (by intro l hl; rw [show linesClean (splitOnNl text) = [] from h] at hl; cases hl)]
  rw [show linesClean (splitOnNl text) = [] from h]
  simp [parseLoop]

/-- Witness for C6_empty_text_empty_triage at a whitespace-only text. -/
theorem C6_empty_text_empty_triage_witness :
    deep_clinical_parse (String.toList " \t \n   \n") = emptyTriage :=
  C6_empty_text_empty_triage (String.toList " \t \n   \n") (by decide)

/-- C7 counterexample: a file named cv.pdf whose PDF extraction raises
makes get_clean_text propagate the error instead of returning the
empty string: the source has no exception handler. -/
theorem C7_counterexample :
    get_clean_text ({ name := String.toList "cv.pdf", pdfPages := Except.error (),
                      docxParas := Except.ok [] } : PyFile Unit) = Except.error ()
    ∧ get_clean_text ({ name := String.toList "cv.pdf", pdfPages := Except.error (),
                        docxParas := Except.ok [] } : PyFile Unit) ≠ Except.ok [] := by
  refine ⟨rfl, fun h => ?_⟩
  exact Except.noConfusion h

/-- C7 amended: get_clean_text returns the empty string for a file
whose name ends in neither .pdf nor .docx, and for a supported suffix
it propagates any error of the extraction library to the caller
unchanged; extraction errors are not swallowed. -/
theorem C7_extraction_contract {ε : Type} (f : PyFile ε) :
    (isPre (String.toList ".pdf").reverse f.name.reverse = false →
      isPre (String.toList ".docx").reverse f.name.reverse = false →
      get_clean_text f = Except.ok [])
    ∧ (∀ e : ε, isPre (String.toList ".pdf").reverse f.name.reverse = true →
        f.pdfPages = Except.error e → get_clean_text f = Except.error e)
    ∧ (∀ e : ε, isPre (String.toList ".pdf").reverse f.name.reverse = false →
        isPre (String.toList ".docx").reverse f.name.reverse = true →
        f.docxParas = Except.error e → get_clean_text f = Except.error e) := by
  refine ⟨fun h1 h2 => ?_, fun e h1 h2 => ?_, fun e h1 h2 h3 => ?_⟩
  · rw [get_clean_text, if_neg (by rw [h1]; simp), if_neg (by rw [h2]; simp)]
  · rw [get_clean_text, if_pos h1, h2]
  · rw [get_clean_text, if_neg (by rw [h1]; simp), if_pos h2, h3]

/-- Witness for C7_extraction_contract at a file of unsupported
format. -/
theorem C7_extraction_contract_witness :
    get_clean_text ({ name := String.toList "notes.txt", pdfPages := Except.ok [],
                      docxParas := Except.ok [] } : PyFile Unit) = Except.ok [] :=
  (C7_extraction_contract _).1 (by decide) (by decide)

/-- C8: the heuristic triage path is deterministic; it is a pure
function of the input text alone, so two runs on equal texts agree in
every category list, content and order. -/
theorem C8_deterministic (t1 t2 : List Char) (h : t1 = t2) :
    (deep_clinical_parse t1).rotations = (deep_clinical_parse t2).rotations
    ∧ (deep_clinical_parse t1).procedures = (deep_clinical_parse t2).procedures
    ∧ (deep_clinical_parse t1).projects = (deep_clinical_parse t2).projects
    ∧ (deep_clinical_parse t1).registrations = (deep_clinical_parse t2).registrations
    ∧ (deep_clinical_parse t1).fragments = (deep_clinical_parse t2).fragments := by
  subst h
  exact ⟨rfl, rfl, rfl, rfl, rfl⟩

/-- Witness for C8_deterministic at a concrete text. -/
theorem C8_deterministic_witness :
    (deep_clinical_parse (String.toList "gmc number 123")).rotations =
      (deep_clinical_parse (String.toList "gmc number 123")).rotations
    ∧ (deep_clinical_parse (String.toList "gmc number 123")).procedures =
      (deep_clinical_parse (String.toList "gmc number 123")).procedures
    ∧ (deep_clinical_parse (String.toList "gmc number 123")).projects =
      (deep_clinical_parse (String.toList "gmc number 123")).projects
    ∧ (deep_clinical_parse (String.toList "gmc number 123")).registrations =
      (deep_clinical_parse (String.toList "gmc number 123")).registrations
    ∧ (deep_clinical_parse (String.toList "gmc number 123")).fragments =
      (deep_clinical_parse (String.toList "gmc number 123")).fragments :=
  C8_deterministic _ _ rfl

/-- C9: the scenario block is classified as registration because gmc
is found, even though audit is also present. -/
theorem C9_scenario_registration :
    containsSub (String.toList "gmc")
        (pyLower (String.toList "Audit of sepsis management, GMC reflective practice")) = true
    ∧ containsSub (String.toList "audit")
        (pyLower (String.toList "Audit of sepsis management, GMC reflective practice")) = true
    ∧ classifyBlock (String.toList "Audit of sepsis management, GMC reflective practice") =
        Cat.registrationsC := by
  decide

/-- C10: no category list of a triage result ever holds an empty
block: the accumulator only ever receives non-empty trimmed lines, a
header line with an empty accumulator opens the block instead of
closing one, and closed blocks join at least one non-empty line. -/
theorem C10_no_empty_block (text b : List Char)
    (hb : b ∈ allBlocks (deep_clinical_parse text)) : b ≠ [] :=
  parseLoop_blocks_ne_nil (splitOnNl text) [] emptyTriage
    (by intro l hl; cases hl)
    (by intro x hx; simp [allBlocks, emptyTriage] at hx)
    b hb

/-- Witness for C10_no_empty_block at a one-line text. -/
theorem C10_no_empty_block_witness :
    String.toList "abc" ∈ allBlocks (deep_clinical_parse (String.toList "abc"))
    ∧ String.toList "abc" ≠ [] :=
  ⟨by decide, C10_no_empty_block (String.toList "abc") (String.toList "abc") (by decide)⟩

